import Mathlib

/-!
Verification of the branch-isolation / rollback core of the auto-healing system
(`github_utils.py`, class `GitHubUtils`).

The embedding models the working copy as an abstract git state: the ordered list
of local branch names (`heads`, in the order the git layer presents them), the
checkout state (attached to a named branch, or detached), the remote-tracking
refs of the `origin` remote, the target of the remote symbolic `origin/HEAD`
pointer, whether an `origin` remote is configured at all, and the persisted
remote URL.  Worktree file contents and commit objects are not modelled: no
claim under scrutiny mentions them, only branch bookkeeping, URLs and errors.

Fallible external effects (network pushes and pulls, file writes, commits, and
spurious checkout failures) are driven by an explicit oracle of booleans, so
that every theorem quantifies over all failure scenarios the model can express.
Exceptions are values of `GitErr`, tagged with the Python exception class they
embed (`GitCommandError`, `InvalidGitRepositoryError`/`AttributeError`,
`OSError`, plain `Exception`), because `clone_or_pull_repo` catches only
`GitCommandError` while `apply_fix_and_push` catches every `Exception`.
-/

namespace AutoHeal

/-- The fixed automation branch name: `branch_name` in `apply_fix_and_push` and
`auto_fix_branch` in `_get_default_branch`. -/
def autoFixBranch : String := "auto-fix-branch"

/-- Abstract state of one local working copy.  `heads` is the ordered list of
local branch names as the git layer presents them; `current = some b` means the
working copy is attached to branch `b`, `none` means detached HEAD.
`remoteRefs` holds the names of the remote tracking refs of `origin` (such as
`"origin/main"`), `remoteHead` the full name of the branch the symbolic
`origin/HEAD` pointer designates (or `none` when that pointer is absent or
unresolvable), `hasOrigin` whether an `origin` remote is configured at all
(`repo.remotes.origin` raises when it is not), and `originUrl` the persisted
URL of the `origin` remote. -/
structure RepoState where
  heads : List String
  current : Option String
  remoteRefs : List String
  remoteHead : Option String
  hasOrigin : Bool
  originUrl : String
deriving DecidableEq

/-- Exceptions, tagged by the Python exception class they model.  `msg` is what
`str(e)` would produce. -/
inductive GitErr where
  | gitCommand (m : String)
  | invalidRepo (m : String)
  | attrMissing (m : String)
  | osErr (m : String)
  | generic (m : String)
deriving DecidableEq

/-- The user-visible message of an exception, Python `str(e)`. -/
def GitErr.msg : GitErr → String
  | .gitCommand m => m
  | .invalidRepo m => m
  | .attrMissing m => m
  | .osErr m => m
  | .generic m => m

/-- Python `name.split('/')[-1]`: the part of `s` after its last `'/'` (all of
`s` when it has no `'/'`, empty when `s` ends in `'/'`). -/
def lastComponent (s : String) : String :=
  ⟨(s.data.reverse.takeWhile (fun c => c != '/')).reverse⟩

/-- Substring search on character lists: does `pat` occur in the list? -/
def listInfix (pat : List Char) : List Char → Bool
  | [] => pat.isEmpty
  | c :: cs => pat.isPrefixOf (c :: cs) || listInfix pat cs

/-- Python `pat in s` on strings: substring containment. -/
def strContains (s pat : String) : Bool :=
  listInfix pat.data s.data

/-- Python `s.startswith(pre)`. -/
def strStarts (s pre : String) : Bool :=
  pre.data.isPrefixOf s.data

/-- Python `s.replace(pat, rep)` on the underlying character lists: every
non-overlapping occurrence of `pat`, scanned left to right, is replaced by
`rep`.  The fuel argument, instantiated with the list's length, makes the
recursion structural; each step consumes at least one character, so the fuel
never runs out at a call site.  All call sites pass the non-empty pattern
`"https://"`. -/
def replaceChars (pat rep : List Char) : Nat → List Char → List Char
  | _, [] => []
  | 0, rest => rest
  | fuel + 1, c :: cs =>
    if pat ≠ [] ∧ pat.isPrefixOf (c :: cs) then
      rep ++ replaceChars pat rep fuel (cs.drop (pat.length - 1))
    else
      c :: replaceChars pat rep fuel cs

/-- Python `s.replace(pat, rep)`, lifted to `String`. -/
def pyReplace (s pat rep : String) : String :=
  ⟨replaceChars pat.data rep.data s.data.length s.data⟩

/-!
## `GitHubUtils._get_default_branch` (github_utils.py lines 195-222)

The remote-HEAD probe sits inside a bare `try/except: pass`; it is embedded as
an `Except`-valued lookup whose failure the caller discards, so that the
claim about totality (C10) can be stated against the genuinely fallible part.
-/

/-- The `try` body of `_get_default_branch`: consult the remote symbolic HEAD.
`repo.remotes.origin` raises `AttributeError` when no `origin` remote is
configured; `repo.remotes.origin.refs.HEAD` raises when the symbolic pointer is
absent; both raises are modelled as `.error`, which the caller swallows.  When
the pointer resolves, its last path component is returned only if it differs
from the automation branch and exists locally (the code's guard). -/
def tryRemoteDefault (st : RepoState) : Except GitErr (Option String) :=
  if st.hasOrigin then
    if st.remoteRefs.isEmpty then .ok none
    else
      match st.remoteHead with
      | some target =>
        if lastComponent target ≠ autoFixBranch ∧ lastComponent target ∈ st.heads then
          .ok (some (lastComponent target))
        else .ok none
      | none => .error (.attrMissing "RemoteReference HEAD")
  else .error (.attrMissing "remote origin does not exist")

/-- Steps 2-4 of `_get_default_branch`, run when the remote-HEAD probe yields
nothing: the ordered candidates `['main', 'master', 'develop', 'dev']` that
exist locally and are not the automation branch, then the first local branch
that is not the automation branch, then the literal `'main'`. -/
def fallbackCascade (heads : List String) : String :=
  match (["main", "master", "develop", "dev"]).find?
      (fun b => decide (b ∈ heads) && decide (b ≠ autoFixBranch)) with
  | some b => b
  | none =>
    match heads.find? (fun h => decide (h ≠ autoFixBranch)) with
    | some h => h
    | none => "main"

/-- `GitHubUtils._get_default_branch`: remote symbolic HEAD first (failures of
that probe swallowed by `except: pass`), then the candidate cascade of
`fallbackCascade`. -/
def get_default_branch (st : RepoState) : String :=
  match tryRemoteDefault st with
  | .ok (some b) => b
  | .ok none => fallbackCascade st.heads
  | .error _ => fallbackCascade st.heads

/-- `resolveDefaultBranch` exactly as the spec (§4.2) and claim C4 word it,
for comparison with the code's `get_default_branch`: (1) the remote's symbolic
default-branch pointer if it resolves to a name that exists locally and is not
the automation branch; (2) the first of the ordered candidates
`[main, master, develop, dev]` that exists locally and is not the automation
branch; (3) the first local branch that is not the automation branch; (4) the
literal string `"main"`.  Unlike the code it does not additionally require the
remote's tracking-ref list to be non-empty before consulting the pointer. -/
def resolveDefaultBranchSpec (st : RepoState) : String :=
  let step1 : Option String :=
    if st.hasOrigin then
      match st.remoteHead with
      | some target =>
        if lastComponent target ∈ st.heads ∧ lastComponent target ≠ autoFixBranch then
          some (lastComponent target)
        else none
      | none => none
    else none
  match step1 with
  | some b => b
  | none =>
    match (["main", "master", "develop", "dev"]).find?
        (fun b => decide (b ∈ st.heads) && decide (b ≠ autoFixBranch)) with
    | some b => b
    | none =>
      match st.heads.find? (fun h => decide (h ≠ autoFixBranch)) with
      | some h => h
      | none => "main"

/-- Lines 44-54 of `apply_fix_and_push`: capture the branch to restore to.
With detached HEAD, or when sitting on the automation branch left over from a
previous aborted run, the default branch is resolved instead; otherwise the
current branch name is kept. -/
def captureOriginalBranch (st : RepoState) : String :=
  match st.current with
  | none => get_default_branch st
  | some c => if c = autoFixBranch then get_default_branch st else c

/-!
## Git primitives used by `apply_fix_and_push`

Plain checkout of an existing branch may fail spuriously (conflicting
worktree state, lock files); the `spurious` flag, supplied by the failure
oracle, drives that.  Checkout of a non-existing branch always fails.
Creating a branch with `checkout -b` at the current HEAD always succeeds when
no branch of that name exists, and always fails when one does.  Forced
deletion of a branch still refuses the currently checked-out branch.
-/

/-- `repo.git.checkout(b)` for a plain branch name. -/
def checkoutExisting (spurious : Bool) (st : RepoState) (b : String) : Except GitErr RepoState :=
  if b ∈ st.heads then
    if spurious then .error (.gitCommand ("checkout of " ++ b ++ " failed"))
    else .ok { st with current := some b }
  else .error (.gitCommand ("pathspec " ++ b ++ " did not match any known branch"))

/-- `repo.git.checkout('-b', b)`: create `b` at the current HEAD and attach. -/
def checkoutNew (st : RepoState) (b : String) : Except GitErr RepoState :=
  if b ∈ st.heads then .error (.gitCommand ("a branch named " ++ b ++ " already exists"))
  else .ok { st with heads := st.heads ++ [b], current := some b }

/-- `repo.git.checkout('-b', b, 'origin/' + b)`: the same local bookkeeping as
`checkoutNew`; which commit the new branch tracks is not modelled. -/
def checkoutNewTracking (st : RepoState) (b : String) : Except GitErr RepoState :=
  checkoutNew st b

/-- `repo.delete_head(b, force=True)`. -/
def deleteHead (st : RepoState) (b : String) : Except GitErr RepoState :=
  if st.current = some b then
    .error (.gitCommand ("cannot delete checked out branch " ++ b))
  else .ok { st with heads := st.heads.erase b }

/-!
## The safety re-check block (`apply_fix_and_push` lines 56-80)

Run when the captured original branch still equals the automation branch.
(`capture_original_branch_correct` together with
`get_default_branch_never_automation` show the composed flow never reaches it,
but claim C6 is about this block's own behaviour, so it is embedded as a
function of the state.)  It returns the replacement original branch together
with the possibly updated state, or the dedicated error.
-/

/-- Lines 56-80: candidate search `['main', 'master', 'develop']` over local
branches; then try to materialize `main`/`master` from the matching remote
tracking ref, else a fresh branch from current HEAD (listing
`repo.remotes.origin.refs` raises when no origin remote exists, landing in the
`except` arm); on failure fall back to `repo.heads[0]` — with no exclusion of
the automation branch — and only with no local branches at all raise the
dedicated error. -/
def safetyRecheck (st : RepoState) : Except GitErr (String × RepoState) :=
  match (["main", "master", "develop"]).find? (fun b => decide (b ∈ st.heads)) with
  | some b => .ok (b, st)
  | none =>
    match (if st.hasOrigin then
             if "origin/main" ∈ st.remoteRefs then checkoutNewTracking st "main"
             else if "origin/master" ∈ st.remoteRefs then checkoutNewTracking st "master"
             else checkoutNew st "main"
           else .error (.attrMissing "remote origin does not exist")) with
    | .ok st' => .ok (st'.current.getD "", st')
    | .error _ =>
      match st.heads with
      | h :: _ => .ok (h, st)
      | [] => .error (.generic "No valid branch found and unable to create one")

/-!
## `GitHubUtils.apply_fix_and_push` (lines 35-193)
-/

/-- Failure oracle: which fallible external effect raises.  Each flag drives
one call site of `apply_fix_and_push`. -/
structure Oracle where
  ensureCheckoutFails : Bool
  writeFails : Bool
  stageFails : Bool
  commitFails : Bool
  pushFails : Bool
  finalCheckoutFails : Bool
  rollbackCheckoutFails : Bool
  resetFails : Bool
  cleanupDeleteFails : Bool
deriving DecidableEq

/-- The all-success oracle. -/
def noFail : Oracle := ⟨false, false, false, false, false, false, false, false, false⟩

/-- Observable external effects: network calls and the file write/commit. -/
inductive Event where
  | pulled (url : String)
  | cloned (url : String)
  | pushed (url branch : String) (force : Bool)
  | wroteFile (path content : String)
  | committed (message : String)
deriving DecidableEq

/-- A raised exception together with the `original_branch` variable and the
on-disk repository state at the moment of raising — what the `except` arm of
`apply_fix_and_push` will see. -/
structure Failure where
  err : GitErr
  origBranch : Option String
  st : RepoState
deriving DecidableEq

/-- Lines 42-80: capture the original branch, then the safety re-check when the
capture still yielded the automation branch. -/
def capturePhase (st : RepoState) : Except GitErr (String × RepoState) :=
  if captureOriginalBranch st = autoFixBranch then safetyRecheck st
  else .ok (captureOriginalBranch st, st)

/-- Lines 96-99: overwrite the target file; `open`/`write` may raise `OSError`.
Worktree file contents are not modelled, only the effect. -/
def writeFix (fails : Bool) (path content : String) : Except GitErr (List Event) :=
  if fails then .error (.osErr ("could not write " ++ path))
  else .ok [.wroteFile path content]

/-- Line 102: `repo.index.add([file_path])`, staging exactly that path. -/
def stageFix (fails : Bool) (path : String) : Except GitErr Unit :=
  if fails then .error (.gitCommand ("failed to add " ++ path)) else .ok ()

/-- Line 105: `repo.index.commit(...)` with the fixed automation message. -/
def commitFix (fails : Bool) : Except GitErr (List Event) :=
  if fails then .error (.gitCommand "commit failed")
  else .ok [.committed "🤖 Auto-fix applied by AI DevOps Assistant"]

/-- Lines 108-118: resolve the push URL from the stored remote; with a token
and a `github.com` URL not already carrying an `@`, push over the ephemeral
token-embedded URL via `repo.git.push` (the stored remote configuration is not
touched); otherwise push over the stored remote.  `repo.remotes.origin` raises
when no origin remote is configured.  Both forms force-push. -/
def pushPhase (fails : Bool) (st : RepoState) (token : Option String) :
    Except GitErr (List Event) :=
  if st.hasOrigin then
    match token with
    | some t =>
      if strContains st.originUrl "github.com" then
        if strContains st.originUrl "@" then
          if fails then .error (.gitCommand "push failed")
          else .ok [.pushed st.originUrl autoFixBranch true]
        else
          if fails then .error (.gitCommand "push failed")
          else .ok [.pushed (pyReplace st.originUrl "https://" ("https://" ++ t ++ "@"))
            autoFixBranch true]
      else
        if fails then .error (.gitCommand "push failed")
        else .ok [.pushed st.originUrl autoFixBranch true]
    | none =>
      if fails then .error (.gitCommand "push failed")
      else .ok [.pushed st.originUrl autoFixBranch true]
  else .error (.attrMissing "remote origin does not exist")

/-- Lines 83-84: if detached or on a different branch, checkout the captured
original branch. -/
def ensureOnOriginal (spurious : Bool) (st : RepoState) (ob : String) : Except GitErr RepoState :=
  match st.current with
  | some c => if c = ob then .ok st else checkoutExisting spurious st ob
  | none => checkoutExisting spurious st ob

/-- Lines 87-88: delete the automation branch if it exists (we are not on it
by this point). -/
def deleteStaleAutomation (st : RepoState) : Except GitErr RepoState :=
  if autoFixBranch ∈ st.heads then deleteHead st autoFixBranch else .ok st

/-- The `try` body of `apply_fix_and_push` (lines 41-124): on success the final
state and the external effects; on failure the exception together with the
`original_branch` variable and the state at the moment of raising. -/
def mainPath (st0 : RepoState) (filePath fixedCode : String) (token : Option String)
    (o : Oracle) : Except Failure (RepoState × List Event) :=
  match capturePhase st0 with
  | .error e => .error ⟨e, none, st0⟩
  | .ok (ob, st1) =>
    match ensureOnOriginal o.ensureCheckoutFails st1 ob with
    | .error e => .error ⟨e, some ob, st1⟩
    | .ok st2 =>
      match deleteStaleAutomation st2 with
      | .error e => .error ⟨e, some ob, st2⟩
      | .ok st3 =>
        match checkoutNew st3 autoFixBranch with
        | .error e => .error ⟨e, some ob, st3⟩
        | .ok st4 =>
          match writeFix o.writeFails filePath fixedCode with
          | .error e => .error ⟨e, some ob, st4⟩
          | .ok ev1 =>
            match stageFix o.stageFails filePath with
            | .error e => .error ⟨e, some ob, st4⟩
            | .ok _ =>
              match commitFix o.commitFails with
              | .error e => .error ⟨e, some ob, st4⟩
              | .ok ev2 =>
                match pushPhase o.pushFails st4 token with
                | .error e => .error ⟨e, some ob, st4⟩
                | .ok ev3 =>
                  match checkoutExisting o.finalCheckoutFails st4 ob with
                  | .error e => .error ⟨e, some ob, st4⟩
                  | .ok st5 => .ok (st5, ev1 ++ ev2 ++ ev3)

/-- Rollback step 1 (lines 130-136): determine the restore target. -/
def rollbackRestoreTarget (st : RepoState) (ob : Option String) : String :=
  match ob with
  | some b => if b ≠ autoFixBranch then b else get_default_branch st
  | none => get_default_branch st

/-- Rollback step 2 (lines 138-151): when the target is absent, materialize it
from the matching remote tracking ref if one exists, else fresh at current
HEAD; listing `repo.remotes.origin.refs` raises without an origin remote, upon
which the `except` arm renames the target to the first non-automation local
branch (no checkout, and no change when there is none). -/
def rollbackEnsureExists (st : RepoState) (restore : String) : RepoState × String :=
  if restore ∈ st.heads then (st, restore)
  else
    match (if st.hasOrigin then
             if ("origin/" ++ restore) ∈ st.remoteRefs then checkoutNewTracking st restore
             else checkoutNew st restore
           else .error (.attrMissing "remote origin does not exist")) with
    | .ok st' => (st', restore)
    | .error _ =>
      match st.heads.find? (fun h => decide (h ≠ autoFixBranch)) with
      | some h => (st, h)
      | none => (st, restore)

/-- Rollback step 3 (lines 153-165): checkout the restore target; on failure,
iterate the local branches excluding the automation branch and force-checkout
the first; forced checkout of an existing branch succeeds. -/
def rollbackCheckout (spurious : Bool) (st : RepoState) (restore : String) : RepoState :=
  match checkoutExisting spurious st restore with
  | .ok st' => st'
  | .error _ =>
    match st.heads.find? (fun h => decide (h ≠ autoFixBranch)) with
    | some h => { st with current := some h }
    | none => st

/-- Rollback step 4 (lines 167-171): `git reset --hard` discards uncommitted
edits; branch bookkeeping is unchanged and any failure is swallowed. -/
def rollbackReset (st : RepoState) : RepoState := st

/-- Rollback step 5 (lines 173-180): delete the automation branch if it exists
and is not currently checked out; any failure (oracle-driven) is swallowed. -/
def rollbackCleanup (deleteFails : Bool) (st : RepoState) : RepoState :=
  if autoFixBranch ∈ st.heads then
    if st.current ≠ some autoFixBranch then
      if deleteFails then st
      else
        match deleteHead st autoFixBranch with
        | .ok st' => st'
        | .error _ => st
    else st
  else st

/-- The state restoration of the whole `except` arm (lines 126-185): steps 1-5
in order, each best-effort; the arm as a whole never raises. -/
def rollback (o : Oracle) (st : RepoState) (ob : Option String) : RepoState :=
  let restore := rollbackRestoreTarget st ob
  let p := rollbackEnsureExists st restore
  rollbackCleanup o.cleanupDeleteFails (rollbackReset (rollbackCheckout o.rollbackCheckoutFails p.1 p.2))

/-- The result dict of `apply_fix_and_push`. -/
inductive FixResult where
  | ok (branch message : String)
  | err (error : String)
deriving DecidableEq

/-- `GitHubUtils.apply_fix_and_push`: the `try` body, and on any exception the
`except` arm — rollback of the repository state and the `{'success': False,
'error': str(e)}` result.  The embedding is a total function: the `except` arm
cannot raise.  The event list reports the external effects of the successful
path. -/
def apply_fix_and_push (st0 : RepoState) (filePath fixedCode : String)
    (token : Option String) (o : Oracle) : RepoState × List Event × FixResult :=
  match mainPath st0 filePath fixedCode token o with
  | .ok (st, evs) => (st, evs, .ok autoFixBranch ("Fix pushed to branch " ++ autoFixBranch))
  | .error f => (rollback o f.st f.origBranch, [], .err f.err.msg)

/-!
## `GitHubUtils.clone_or_pull_repo` (lines 11-33)
-/

/-- The token-embedding URL transformation (lines 16-19): when a token is
given and the URL contains `github.com`, first prefix non-`http`-schemed URLs
with `https://github.com/`, then replace every `https://` with
`https://<token>@`.  A matching URL that already begins with plain `http://`
is left unchanged by the replacement.  An empty token is Python-falsy and so
absent; `token = some t` models a supplied, non-empty token. -/
def authUrl (token : Option String) (url : String) : String :=
  match token with
  | some t =>
    if strContains url "github.com" then
      pyReplace (if strStarts url "http" then url else "https://github.com/" ++ url)
        "https://" ("https://" ++ t ++ "@")
    else url
  | none => url

/-- The local directory `os.path.join(self.repos_dir, repo_name)`: absent (a
fresh clone runs), present but not a valid git repository (`Repo(local_path)`
raises `InvalidGitRepositoryError`), or a valid working copy. -/
inductive LocalDir where
  | absent
  | corrupt
  | repo (st : RepoState)
deriving DecidableEq

/-- Failure oracle for sync, plus the remote's content for a successful clone:
`cloneResult` is the working copy a clone would produce, before git records
the clone URL as its persisted origin remote URL. -/
structure SyncOracle where
  pullFails : Bool
  cloneFails : Bool
  cloneResult : RepoState
deriving DecidableEq

/-- The `try` body of `clone_or_pull_repo` (lines 22-31): pull the existing
working copy over its stored origin remote — the token-embedded URL computed
earlier is unused on this path — or clone from the (possibly token-embedded)
URL, which git then persists as the new working copy's origin URL.
`repo.remotes.origin` raises `AttributeError` when the existing working copy
has no origin remote. -/
def cloneOrPullBody (dir : LocalDir) (url : String) (o : SyncOracle) :
    Except GitErr (RepoState × List Event) :=
  match dir with
  | .corrupt => .error (.invalidRepo "not a valid git repository")
  | .repo st =>
    if st.hasOrigin then
      if o.pullFails then .error (.gitCommand "pull failed")
      else .ok (st, [.pulled st.originUrl])
    else .error (.attrMissing "remote origin does not exist")
  | .absent =>
    if o.cloneFails then .error (.gitCommand "clone failed")
    else .ok ({ o.cloneResult with hasOrigin := true, originUrl := url }, [.cloned url])

/-- `GitHubUtils.clone_or_pull_repo`: compute the (possibly token-embedded)
URL, run the body, and convert `GitCommandError` — and only that class — into
`Exception('Git operation failed: ...')`; a raise of any other class
propagates unchanged.  `repoName` names the local directory; the `dir`
argument stands for what is found there. -/
def clone_or_pull_repo (dir : LocalDir) (repoUrl repoName : String)
    (token : Option String) (o : SyncOracle) : Except GitErr (RepoState × List Event) :=
  match cloneOrPullBody dir (authUrl token repoUrl) o with
  | .ok r => .ok r
  | .error (.gitCommand m) => .error (.generic ("Git operation failed: " ++ m))
  | .error e => .error e

/-- Helper: a successful remote-HEAD probe yields a branch that is not the
automation branch and exists locally. -/
theorem tryRemoteDefault_ok_some {st : RepoState} {b : String}
    (h : tryRemoteDefault st = .ok (some b)) :
    b ≠ autoFixBranch ∧ b ∈ st.heads := by
  unfold tryRemoteDefault at h
  split at h
  · split at h
    · simp at h
    · split at h
      · split at h
        · simp only [Except.ok.injEq, Option.some.injEq] at h
          subst h
          assumption
        · simp at h
      · simp at h
  · simp at h

/-- Helper: the candidate cascade always yields a non-automation name that is
either one of the given branches or the literal fallback `"main"`. -/
theorem fallbackCascade_characterization (heads : List String) :
    fallbackCascade heads ≠ autoFixBranch ∧
      (fallbackCascade heads ∈ heads ∨ fallbackCascade heads = "main") := by
  unfold fallbackCascade
  cases hf : (["main", "master", "develop", "dev"]).find?
      (fun b => decide (b ∈ heads) && decide (b ≠ autoFixBranch)) with
  | some b =>
    have hp := List.find?_some hf
    simp only [Bool.and_eq_true, decide_eq_true_eq] at hp
    exact ⟨hp.2, Or.inl hp.1⟩
  | none =>
    cases hg : heads.find? (fun h => decide (h ≠ autoFixBranch)) with
    | some c =>
      have hp := List.find?_some hg
      simp only [decide_eq_true_eq] at hp
      exact ⟨hp, Or.inl (List.mem_of_find?_eq_some hg)⟩
    | none =>
      refine ⟨by decide, Or.inr rfl⟩

/-- Helper: `_get_default_branch` always yields a non-automation name that is
either a local branch or the literal fallback `"main"`. -/
theorem get_default_branch_characterization (st : RepoState) :
    get_default_branch st ≠ autoFixBranch ∧
      (get_default_branch st ∈ st.heads ∨ get_default_branch st = "main") := by
  unfold get_default_branch
  cases h : tryRemoteDefault st with
  | ok r =>
    cases r with
    | some b =>
      obtain ⟨hb, hmem⟩ := tryRemoteDefault_ok_some h
      exact ⟨hb, Or.inl hmem⟩
    | none => exact fallbackCascade_characterization st.heads
  | error e => exact fallbackCascade_characterization st.heads

/-- C3: `_get_default_branch` never returns the automation branch name
`"auto-fix-branch"`, for every set of local branches and every state of the
remote's symbolic default-branch pointer (including pointer absent, remote
refs empty, or no origin remote at all). -/
theorem get_default_branch_never_automation (st : RepoState) :
    get_default_branch st ≠ autoFixBranch :=
  (get_default_branch_characterization st).1

/-- C10: `_get_default_branch` is total.  It is a function defined on every
repository state — including `hasOrigin = false` (unreachable or absent
remote), `remoteRefs = []` (empty remote), `remoteHead = none` (no symbolic
HEAD) and `heads = []` (no local branches) — because the only fallible lookup,
`tryRemoteDefault`, is guarded by `except: pass` inside `get_default_branch`;
and it always returns a branch-name string: a local branch or the constant
final fallback `"main"`. -/
theorem get_default_branch_total (st : RepoState) :
    get_default_branch st ∈ st.heads ∨ get_default_branch st = "main" :=
  (get_default_branch_characterization st).2

/-- C4: `_get_default_branch` tries exactly the order the spec gives and
returns the first success.  The well-formedness hypothesis couples the two
remote fields the way a real remote does: a resolvable symbolic `origin/HEAD`
is itself one of the remote's tracking refs, so the tracking-ref list cannot
be empty when the pointer resolves. -/
theorem get_default_branch_matches_spec (st : RepoState)
    (hwf : st.remoteHead.isSome → st.remoteRefs ≠ []) :
    get_default_branch st = resolveDefaultBranchSpec st := by
  unfold get_default_branch resolveDefaultBranchSpec tryRemoteDefault
  cases ho : st.hasOrigin with
  | false => simp [fallbackCascade]
  | true =>
    cases hh : st.remoteHead with
    | none =>
      cases hre : st.remoteRefs.isEmpty <;> simp [fallbackCascade]
    | some target =>
      have hne : st.remoteRefs ≠ [] := hwf (by rw [hh]; rfl)
      have hre : st.remoteRefs.isEmpty = false := by
        cases hr : st.remoteRefs with
        | nil => exact absurd hr hne
        | cons a l => rfl
      rw [hre]
      by_cases h1 : lastComponent target = autoFixBranch <;>
        by_cases h2 : lastComponent target ∈ st.heads <;>
          simp [h1, h2, fallbackCascade]

/-- Witness for C4 at a concrete repository: remote symbolic HEAD points at
`origin/master`, which exists locally, so both functions return `"master"`. -/
theorem get_default_branch_matches_spec_witness :
    get_default_branch
        ⟨["master"], some "master", ["origin/HEAD", "origin/master"],
          some "origin/master", true, "https://github.com/acme/widgets"⟩ =
      resolveDefaultBranchSpec
        ⟨["master"], some "master", ["origin/HEAD", "origin/master"],
          some "origin/master", true, "https://github.com/acme/widgets"⟩ :=
  get_default_branch_matches_spec _ (by decide)

/-- C5: the captured original branch is `_get_default_branch`'s result whenever
HEAD is detached or the current branch is the automation branch, and the
current branch name otherwise; and on a working copy whose local branches are
exactly `{main, auto-fix-branch}` (either presentation order) with HEAD
detached it is `"main"`, whatever the remote looks like. -/
theorem capture_original_branch_correct (st : RepoState) :
    (st.current = none → captureOriginalBranch st = get_default_branch st) ∧
    (st.current = some autoFixBranch → captureOriginalBranch st = get_default_branch st) ∧
    (∀ b, st.current = some b → b ≠ autoFixBranch → captureOriginalBranch st = b) ∧
    ((st.heads = ["main", autoFixBranch] ∨ st.heads = [autoFixBranch, "main"]) →
      st.current = none → captureOriginalBranch st = "main") := by
  refine ⟨?_, ?_, ?_, ?_⟩
  · intro hc
    unfold captureOriginalBranch
    rw [hc]
  · intro hc
    unfold captureOriginalBranch
    rw [hc]
    simp
  · intro b hc hb
    unfold captureOriginalBranch
    rw [hc]
    simp [hb]
  · intro hheads hc
    have h1 : captureOriginalBranch st = get_default_branch st := by
      unfold captureOriginalBranch
      rw [hc]
    rw [h1]
    unfold get_default_branch
    cases h : tryRemoteDefault st with
    | ok r =>
      cases r with
      | some b =>
        obtain ⟨hb, hmem⟩ := tryRemoteDefault_ok_some h
        rcases hheads with hh | hh <;> rw [hh] at hmem <;> simp at hmem <;>
          rcases hmem with h' | h' <;> first | exact h' | exact absurd h' hb
      | none =>
        show fallbackCascade st.heads = "main"
        rcases hheads with hh | hh <;> rw [hh] <;> decide
    | error e =>
      show fallbackCascade st.heads = "main"
      rcases hheads with hh | hh <;> rw [hh] <;> decide

/-- Witness for C5: on local branches `[main, auto-fix-branch]` with HEAD
detached and no remote at all, the captured original branch is `"main"`. -/
theorem capture_original_branch_correct_witness :
    captureOriginalBranch ⟨["main", "auto-fix-branch"], none, [], none, false, "u"⟩ = "main" :=
  (capture_original_branch_correct _).2.2.2 (Or.inl rfl) rfl

/-- C6 counterexample: local branches `[auto-fix-branch, feature]` (the order
git presents them alphabetically), no origin remote, so the candidate search
finds nothing and the materialization attempt raises; the last-resort pick is
`repo.heads[0]`, which IS the automation branch — not an existing
non-automation local branch as the claim states. -/
theorem safety_recheck_picks_automation_branch :
    safetyRecheck ⟨["auto-fix-branch", "feature"], some "auto-fix-branch", [], none, false, "u"⟩ =
      .ok ("auto-fix-branch",
        ⟨["auto-fix-branch", "feature"], some "auto-fix-branch", [], none, false, "u"⟩) ∧
    "auto-fix-branch" = autoFixBranch := by
  constructor
  · rfl
  · rfl

/-- C6 (amended): the safety re-check searches the candidates
`[main, master, develop]` among local branches; if none exists it attempts to
materialize `main` or `master` from the matching remote tracking reference,
else a fresh branch from current HEAD; if that attempt raises it picks the
first local branch — which may itself be the automation branch — and only when
no local branch exists at all does it fail with the dedicated no-valid-branch
error. -/
theorem safety_recheck_amended (st : RepoState) :
    (∀ b, (["main", "master", "develop"]).find? (fun c => decide (c ∈ st.heads)) = some b →
        safetyRecheck st = .ok (b, st)) ∧
    ((["main", "master", "develop"]).find? (fun c => decide (c ∈ st.heads)) = none →
      (st.hasOrigin = true →
        ("origin/main" ∈ st.remoteRefs →
          safetyRecheck st =
            .ok ("main", { st with heads := st.heads ++ ["main"], current := some "main" })) ∧
        ("origin/main" ∉ st.remoteRefs → "origin/master" ∈ st.remoteRefs →
          safetyRecheck st =
            .ok ("master", { st with heads := st.heads ++ ["master"], current := some "master" })) ∧
        ("origin/main" ∉ st.remoteRefs → "origin/master" ∉ st.remoteRefs →
          safetyRecheck st =
            .ok ("main", { st with heads := st.heads ++ ["main"], current := some "main" }))) ∧
      (st.hasOrigin = false →
        (∀ h t, st.heads = h :: t → safetyRecheck st = .ok (h, st)) ∧
        (st.heads = [] →
          safetyRecheck st = .error (.generic "No valid branch found and unable to create one")))) := by
  constructor
  · intro b hb
    unfold safetyRecheck
    rw [hb]
  · intro hf
    have hnone := List.find?_eq_none.mp hf
    have hm1 : "main" ∉ st.heads := by
      intro hm
      have := hnone "main" (by simp)
      simp [hm] at this
    have hm2 : "master" ∉ st.heads := by
      intro hm
      have := hnone "master" (by simp)
      simp [hm] at this
    constructor
    · intro ho
      refine ⟨?_, ?_, ?_⟩
      · intro hr
        unfold safetyRecheck
        rw [hf]
        simp [ho, hr, checkoutNewTracking, checkoutNew, hm1]
      · intro hr1 hr2
        unfold safetyRecheck
        rw [hf]
        simp [ho, hr1, hr2, checkoutNewTracking, checkoutNew, hm2]
      · intro hr1 hr2
        unfold safetyRecheck
        rw [hf]
        simp [ho, hr1, hr2, checkoutNewTracking, checkoutNew, hm1]
    · intro ho
      constructor
      · intro h t hht
        unfold safetyRecheck
        rw [hf, ho, hht]
        rfl
      · intro hht
        unfold safetyRecheck
        rw [hf, ho, hht]
        rfl

/-- Witness for C6 at a concrete repository: with `develop` the only candidate
present, the re-check returns it and leaves the state untouched. -/
theorem safety_recheck_amended_witness :
    safetyRecheck ⟨["develop", "auto-fix-branch"], some "auto-fix-branch", [], none, true, "u"⟩ =
      .ok ("develop", ⟨["develop", "auto-fix-branch"], some "auto-fix-branch", [], none, true, "u"⟩) :=
  (safety_recheck_amended _).1 "develop" (by decide)

/-- C1 (evaluation at the failing input): on a working copy whose only local
branch is the automation branch, currently checked out (left over from a
crashed prior run), with no origin remote configured, `apply_fix_and_push`
fails — and leaves the working copy still checked out on `auto-fix-branch`,
against the end-state guarantee.  The capture resolves `main` as the original
branch, checking `main` out fails because it does not exist, and in the
rollback every recovery arm skips or fails: materialization raises while
listing `repo.remotes.origin.refs`, both first-non-automation-branch searches
find nothing, and cleanup refuses to delete the checked-out branch. -/
theorem apply_fix_and_push_leaves_automation_branch :
    (apply_fix_and_push
        ⟨["auto-fix-branch"], some "auto-fix-branch", [], none, false,
          "https://github.com/acme/widgets"⟩
        "app.py" "fixed" none noFail).1.current = some autoFixBranch ∧
    (apply_fix_and_push
        ⟨["auto-fix-branch"], some "auto-fix-branch", [], none, false,
          "https://github.com/acme/widgets"⟩
        "app.py" "fixed" none noFail).2.2 =
      .err "pathspec main did not match any known branch" := by
  constructor
  · rfl
  · rfl

/-- C2: the `except` arm of `apply_fix_and_push` never raises — it is the
total function `rollback` — and for every triggering exception, every captured
original branch and every repository state at the time of failure, the call
returns `success: false` carrying the original error's message; the rollback's
own internal failures (any oracle flags) are swallowed and never substituted
for the original error. -/
theorem apply_fix_and_push_returns_original_error
    (st0 : RepoState) (fp fc : String) (token : Option String) (o : Oracle) (f : Failure)
    (h : mainPath st0 fp fc token o = .error f) :
    apply_fix_and_push st0 fp fc token o = (rollback o f.st f.origBranch, [], .err f.err.msg) := by
  unfold apply_fix_and_push
  rw [h]

/-- Witness for C2: a push failure on an otherwise healthy repository yields
`success: false` with the push error's message, the state driven by
`rollback`. -/
theorem apply_fix_and_push_returns_original_error_witness :
    apply_fix_and_push ⟨["main"], some "main", [], none, true, "https://github.com/acme/widgets"⟩
        "app.py" "fixed" none ⟨false, false, false, false, true, false, false, false, false⟩ =
      (rollback ⟨false, false, false, false, true, false, false, false, false⟩
          ⟨["main", "auto-fix-branch"], some "auto-fix-branch", [], none, true,
            "https://github.com/acme/widgets"⟩ (some "main"),
        [], .err "push failed") :=
  apply_fix_and_push_returns_original_error _ _ _ _ _
    ⟨.gitCommand "push failed", some "main",
      ⟨["main", "auto-fix-branch"], some "auto-fix-branch", [], none, true,
        "https://github.com/acme/widgets"⟩⟩ rfl

/-- C7 counterexample: the local path exists but is not a valid git
repository, so `Repo(local_path)` raises `InvalidGitRepositoryError` inside
the `try` — a version-control-layer fault that is not a `GitCommandError` —
and `clone_or_pull_repo` propagates it raw (no `Git operation failed` wrapper,
not the sync error type), refuting `no raw low-level fault ... ever
propagates to the caller of sync`. -/
theorem clone_or_pull_raw_fault_propagates :
    clone_or_pull_repo .corrupt "https://github.com/acme/widgets" "widgets" none
        ⟨false, false, ⟨[], none, [], none, false, ""⟩⟩ =
      .error (.invalidRepo "not a valid git repository") := rfl

/-- C7 (amended): every failure of an underlying git command during sync is
wrapped into `Exception('Git operation failed: <original message>')`, carrying
the original message; but failures of other classes from the version-control
layer (an invalid existing local repository, a missing origin remote)
propagate to the caller unwrapped. -/
theorem clone_or_pull_wraps_git_failures (dir : LocalDir) (repoUrl repoName : String)
    (token : Option String) (o : SyncOracle) :
    (∀ m, cloneOrPullBody dir (authUrl token repoUrl) o = .error (.gitCommand m) →
      clone_or_pull_repo dir repoUrl repoName token o =
        .error (.generic ("Git operation failed: " ++ m))) ∧
    (∀ m, cloneOrPullBody dir (authUrl token repoUrl) o = .error (.invalidRepo m) →
      clone_or_pull_repo dir repoUrl repoName token o = .error (.invalidRepo m)) ∧
    (∀ m, cloneOrPullBody dir (authUrl token repoUrl) o = .error (.attrMissing m) →
      clone_or_pull_repo dir repoUrl repoName token o = .error (.attrMissing m)) := by
  refine ⟨?_, ?_, ?_⟩ <;> intro m h <;> unfold clone_or_pull_repo <;> rw [h]

/-- Witness for C7: a failing pull is wrapped with the `Git operation failed`
prefix around the original message. -/
theorem clone_or_pull_wraps_git_failures_witness :
    clone_or_pull_repo
        (.repo ⟨["main"], some "main", [], none, true, "https://github.com/acme/widgets"⟩)
        "https://github.com/acme/widgets" "widgets" none
        ⟨true, false, ⟨[], none, [], none, false, ""⟩⟩ =
      .error (.generic "Git operation failed: pull failed") :=
  (clone_or_pull_wraps_git_failures _ _ _ _ _).1 "pull failed" rfl

/-- C8 counterexample: a sync that takes the pull path performs its network
call over the stored origin URL — which carries no credential — although a
credential is supplied and the URL matches the recognized `github.com`
pattern; the authenticated variant (second conjunct) is never used on this
path, because `clone_or_pull_repo` computes it and then pulls via
`repo.remotes.origin`. -/
theorem pull_ignores_credential :
    clone_or_pull_repo
        (.repo ⟨["main"], some "main", [], none, true, "https://github.com/acme/widgets"⟩)
        "https://github.com/acme/widgets" "widgets" (some "abc123")
        ⟨false, false, ⟨[], none, [], none, false, ""⟩⟩ =
      .ok (⟨["main"], some "main", [], none, true, "https://github.com/acme/widgets"⟩,
        [.pulled "https://github.com/acme/widgets"]) ∧
    authUrl (some "abc123") "https://github.com/acme/widgets" =
      "https://abc123@github.com/acme/widgets" := by
  constructor
  · rfl
  · rfl

/-- C8 (amended): only the clone path performs its network call over the
credential-augmented URL `authUrl token url` (prefixing non-`http` URLs with
`https://github.com/` and replacing `https://` by `https://<token>@`, so that
a matching URL beginning with plain `http://` also stays unmodified); a URL
without `github.com`, or any call without a token, uses the URL unmodified;
and the pull path ignores the supplied URL and credential entirely, pulling
over the stored origin URL.  The concrete conjuncts pin the authenticated
form `scheme://credential@host/...` and the unmodified `http://` case. -/
theorem sync_call_url_amended (url name : String) (token : Option String)
    (o : SyncOracle) (st : RepoState) :
    (o.cloneFails = false →
      clone_or_pull_repo .absent url name token o =
        .ok ({ o.cloneResult with hasOrigin := true, originUrl := authUrl token url },
          [.cloned (authUrl token url)])) ∧
    (st.hasOrigin = true → o.pullFails = false →
      clone_or_pull_repo (.repo st) url name token o = .ok (st, [.pulled st.originUrl])) ∧
    authUrl none url = url ∧
    (∀ t, strContains url "github.com" = false → authUrl (some t) url = url) ∧
    authUrl (some "abc123") "https://github.com/acme/widgets" =
      "https://abc123@github.com/acme/widgets" ∧
    authUrl (some "abc123") "http://github.com/acme/widgets" =
      "http://github.com/acme/widgets" := by
  refine ⟨?_, ?_, rfl, ?_, rfl, rfl⟩
  · intro hcf
    simp [clone_or_pull_repo, cloneOrPullBody, hcf]
  · intro ho hpf
    simp [clone_or_pull_repo, cloneOrPullBody, ho, hpf]
  · intro t hc
    simp [authUrl, hc]

/-- Witness for C8 at a concrete clone: the clone call uses the authenticated
URL and records it as the new working copy's origin URL. -/
theorem sync_call_url_amended_witness :
    clone_or_pull_repo .absent "https://github.com/acme/widgets" "widgets" (some "abc123")
        ⟨false, false, ⟨["main"], some "main", [], none, false, ""⟩⟩ =
      .ok (⟨["main"], some "main", [], none, true, "https://abc123@github.com/acme/widgets"⟩,
        [.cloned "https://abc123@github.com/acme/widgets"]) :=
  (sync_call_url_amended "https://github.com/acme/widgets" "widgets" (some "abc123")
    ⟨false, false, ⟨["main"], some "main", [], none, false, ""⟩⟩
    ⟨[], none, [], none, false, ""⟩).1 rfl

/-!
## Preservation of the persisted remote URL

No operation of `apply_fix_and_push` writes the origin remote's configuration:
every state update in the code (and hence in the embedding) touches only the
branch bookkeeping.  These lemmas chain that fact through the pipeline.
-/

/-- Helper: plain checkout does not touch the persisted remote URL. -/
theorem checkoutExisting_originUrl {sp : Bool} {st : RepoState} {b : String} {st' : RepoState}
    (h : checkoutExisting sp st b = .ok st') : st'.originUrl = st.originUrl := by
  unfold checkoutExisting at h
  split at h
  · split at h
    · simp at h
    · simp only [Except.ok.injEq] at h
      subst h
      rfl
  · simp at h

/-- Helper: branch creation does not touch the persisted remote URL. -/
theorem checkoutNew_originUrl {st : RepoState} {b : String} {st' : RepoState}
    (h : checkoutNew st b = .ok st') : st'.originUrl = st.originUrl := by
  unfold checkoutNew at h
  split at h
  · simp at h
  · simp only [Except.ok.injEq] at h
    subst h
    rfl

/-- Helper: tracking-branch creation does not touch the persisted remote URL. -/
theorem checkoutNewTracking_originUrl {st : RepoState} {b : String} {st' : RepoState}
    (h : checkoutNewTracking st b = .ok st') : st'.originUrl = st.originUrl :=
  checkoutNew_originUrl h

/-- Helper: branch deletion does not touch the persisted remote URL. -/
theorem deleteHead_originUrl {st : RepoState} {b : String} {st' : RepoState}
    (h : deleteHead st b = .ok st') : st'.originUrl = st.originUrl := by
  unfold deleteHead at h
  split at h
  · simp at h
  · simp only [Except.ok.injEq] at h
    subst h
    rfl

/-- Helper: the safety re-check does not touch the persisted remote URL. -/
theorem safetyRecheck_originUrl {st : RepoState} {b : String} {st' : RepoState}
    (h : safetyRecheck st = .ok (b, st')) : st'.originUrl = st.originUrl := by
  unfold safetyRecheck at h
  split at h
  · simp only [Except.ok.injEq, Prod.mk.injEq] at h
    rw [← h.2]
  · split at h
    · next stc heq =>
      simp only [Except.ok.injEq, Prod.mk.injEq] at h
      rw [← h.2]
      split at heq
      · split at heq
        · exact checkoutNewTracking_originUrl heq
        · split at heq
          · exact checkoutNewTracking_originUrl heq
          · exact checkoutNew_originUrl heq
      · simp at heq
    · split at h
      · simp only [Except.ok.injEq, Prod.mk.injEq] at h
        rw [← h.2]
      · simp at h

/-- Helper: the capture phase does not touch the persisted remote URL. -/
theorem capturePhase_originUrl {st : RepoState} {ob : String} {st' : RepoState}
    (h : capturePhase st = .ok (ob, st')) : st'.originUrl = st.originUrl := by
  unfold capturePhase at h
  split at h
  · exact safetyRecheck_originUrl h
  · simp only [Except.ok.injEq, Prod.mk.injEq] at h
    rw [← h.2]

/-- Helper: the ensure-on-original step does not touch the persisted remote
URL. -/
theorem ensureOnOriginal_originUrl {sp : Bool} {st : RepoState} {ob : String} {st' : RepoState}
    (h : ensureOnOriginal sp st ob = .ok st') : st'.originUrl = st.originUrl := by
  unfold ensureOnOriginal at h
  split at h
  · split at h
    · simp only [Except.ok.injEq] at h
      subst h
      rfl
    · exact checkoutExisting_originUrl h
  · exact checkoutExisting_originUrl h

/-- Helper: deleting the stale automation branch does not touch the persisted
remote URL. -/
theorem deleteStaleAutomation_originUrl {st : RepoState} {st' : RepoState}
    (h : deleteStaleAutomation st = .ok st') : st'.originUrl = st.originUrl := by
  unfold deleteStaleAutomation at h
  split at h
  · exact deleteHead_originUrl h
  · simp only [Except.ok.injEq] at h
    subst h
    rfl

/-- Helper: on success, the `try` body preserves the persisted remote URL. -/
theorem mainPath_ok_originUrl {st0 : RepoState} {fp fc : String} {token : Option String}
    {o : Oracle} {st : RepoState} {evs : List Event}
    (h : mainPath st0 fp fc token o = .ok (st, evs)) : st.originUrl = st0.originUrl := by
  unfold mainPath at h
  split at h
  next e heq => simp at h
  next ob st1 heq1 =>
    split at h
    next e heq2 => simp at h
    next st2 heq2 =>
      split at h
      next e heq3 => simp at h
      next st3 heq3 =>
        split at h
        next e heq4 => simp at h
        next st4 heq4 =>
          split at h
          next e heq5 => simp at h
          next ev1 heq5 =>
            split at h
            next e heq6 => simp at h
            next u heq6 =>
              split at h
              next e heq7 => simp at h
              next ev2 heq7 =>
                split at h
                next e heq8 => simp at h
                next ev3 heq8 =>
                  split at h
                  next e heq9 => simp at h
                  next st5 heq9 =>
                    simp only [Except.ok.injEq, Prod.mk.injEq] at h
                    obtain ⟨h1, -⟩ := h
                    subst h1
                    exact (checkoutExisting_originUrl heq9).trans
                      ((checkoutNew_originUrl heq4).trans
                        ((deleteStaleAutomation_originUrl heq3).trans
                          ((ensureOnOriginal_originUrl heq2).trans
                            (capturePhase_originUrl heq1))))

/-- Helper: on failure, the state handed to the rollback arm still carries the
initial persisted remote URL. -/
theorem mainPath_error_originUrl {st0 : RepoState} {fp fc : String} {token : Option String}
    {o : Oracle} {f : Failure}
    (h : mainPath st0 fp fc token o = .error f) : f.st.originUrl = st0.originUrl := by
  unfold mainPath at h
  split at h
  next e heq =>
    simp only [Except.error.injEq] at h
    subst h
    rfl
  next ob st1 heq1 =>
    have hst1 : st1.originUrl = st0.originUrl := capturePhase_originUrl heq1
    split at h
    next e heq2 =>
      simp only [Except.error.injEq] at h
      subst h
      exact hst1
    next st2 heq2 =>
      have hst2 : st2.originUrl = st0.originUrl := (ensureOnOriginal_originUrl heq2).trans hst1
      split at h
      next e heq3 =>
        simp only [Except.error.injEq] at h
        subst h
        exact hst2
      next st3 heq3 =>
        have hst3 : st3.originUrl = st0.originUrl :=
          (deleteStaleAutomation_originUrl heq3).trans hst2
        split at h
        next e heq4 =>
          simp only [Except.error.injEq] at h
          subst h
          exact hst3
        next st4 heq4 =>
          have hst4 : st4.originUrl = st0.originUrl := (checkoutNew_originUrl heq4).trans hst3
          split at h
          next e heq5 =>
            simp only [Except.error.injEq] at h
            subst h
            exact hst4
          next ev1 heq5 =>
            split at h
            next e heq6 =>
              simp only [Except.error.injEq] at h
              subst h
              exact hst4
            next u heq6 =>
              split at h
              next e heq7 =>
                simp only [Except.error.injEq] at h
                subst h
                exact hst4
              next ev2 heq7 =>
                split at h
                next e heq8 =>
                  simp only [Except.error.injEq] at h
                  subst h
                  exact hst4
                next ev3 heq8 =>
                  split at h
                  next e heq9 =>
                    simp only [Except.error.injEq] at h
                    subst h
                    exact hst4
                  next st5 heq9 => simp at h

/-- Helper: rollback step 2 preserves the persisted remote URL. -/
theorem rollbackEnsureExists_originUrl (st : RepoState) (r : String) :
    (rollbackEnsureExists st r).1.originUrl = st.originUrl := by
  unfold rollbackEnsureExists
  split
  · rfl
  · split
    · next st' heq =>
      split at heq
      · split at heq
        · exact checkoutNewTracking_originUrl heq
        · exact checkoutNew_originUrl heq
      · simp at heq
    · split
      · rfl
      · rfl

/-- Helper: rollback step 3 preserves the persisted remote URL. -/
theorem rollbackCheckout_originUrl (sp : Bool) (st : RepoState) (r : String) :
    (rollbackCheckout sp st r).originUrl = st.originUrl := by
  unfold rollbackCheckout
  split
  · next st' heq => exact checkoutExisting_originUrl heq
  · split
    · rfl
    · rfl

/-- Helper: rollback step 5 preserves the persisted remote URL. -/
theorem rollbackCleanup_originUrl (df : Bool) (st : RepoState) :
    (rollbackCleanup df st).originUrl = st.originUrl := by
  unfold rollbackCleanup
  split
  · split
    · split
      · rfl
      · split
        · next st' heq => exact deleteHead_originUrl heq
        · rfl
    · rfl
  · rfl

/-- Helper: the whole rollback arm preserves the persisted remote URL. -/
theorem rollback_originUrl (o : Oracle) (st : RepoState) (ob : Option String) :
    (rollback o st ob).originUrl = st.originUrl := by
  unfold rollback rollbackReset
  exact (rollbackCleanup_originUrl _ _).trans
    ((rollbackCheckout_originUrl _ _ _).trans (rollbackEnsureExists_originUrl _ _))

/-- C9 counterexample: cloning with a credential persists the authenticated
URL — credential included — as the cloned working copy's stored origin remote
URL, so the credential IS written into persisted remote configuration by the
clone operation (the spec's own design notes flag exactly this leak as an open
question). -/
theorem clone_persists_credential :
    clone_or_pull_repo .absent "https://github.com/acme/widgets" "widgets" (some "abc123")
        ⟨false, false, ⟨["main"], some "main", [], none, false, ""⟩⟩ =
      .ok (⟨["main"], some "main", [], none, true, "https://abc123@github.com/acme/widgets"⟩,
        [.cloned "https://abc123@github.com/acme/widgets"]) ∧
    strContains "https://abc123@github.com/acme/widgets" "abc123" = true := by
  constructor
  · rfl
  · rfl

/-- C9 (amended): `apply_fix_and_push` never writes the credential into the
persisted remote configuration — for every initial state, token and failure
scenario the final state's stored origin URL equals the initial one; the
concrete push scenario with credential `abc123` against stored remote
`https://github.com/acme/widgets` uses the ephemeral URL
`https://abc123@github.com/acme/widgets` for that single push invocation only,
with the stored URL untouched; and a pull returns the working copy — stored
URL included — unchanged.  A clone, however, persists the authenticated URL it
cloned from (see the counterexample). -/
theorem credential_never_persisted_amended :
    (∀ (st0 : RepoState) (fp fc : String) (token : Option String) (o : Oracle),
      (apply_fix_and_push st0 fp fc token o).1.originUrl = st0.originUrl) ∧
    (apply_fix_and_push
        ⟨["main"], some "main", [], none, true, "https://github.com/acme/widgets"⟩
        "app.py" "fixed" (some "abc123") noFail =
      (⟨["main", "auto-fix-branch"], some "main", [], none, true,
          "https://github.com/acme/widgets"⟩,
        [.wroteFile "app.py" "fixed", .committed "🤖 Auto-fix applied by AI DevOps Assistant",
          .pushed "https://abc123@github.com/acme/widgets" "auto-fix-branch" true],
        .ok "auto-fix-branch" "Fix pushed to branch auto-fix-branch")) ∧
    (∀ (st : RepoState) (url name : String) (token : Option String) (so : SyncOracle)
        (res : RepoState) (evs : List Event),
      clone_or_pull_repo (.repo st) url name token so = .ok (res, evs) →
        res.originUrl = st.originUrl) := by
  refine ⟨?_, rfl, ?_⟩
  · intro st0 fp fc token o
    unfold apply_fix_and_push
    split
    next st evs heq => exact mainPath_ok_originUrl heq
    next f heq => exact (rollback_originUrl o f.st f.origBranch).trans (mainPath_error_originUrl heq)
  · intro st url name token so res evs h
    unfold clone_or_pull_repo cloneOrPullBody at h
    dsimp only at h
    split at h
    next r heq =>
      simp only [Except.ok.injEq] at h
      subst h
      split at heq
      · split at heq
        · simp at heq
        · simp only [Except.ok.injEq, Prod.mk.injEq] at heq
          rw [← heq.1]
      · simp at heq
    next e hne heq => simp at h
    next e hne heq => simp at h

/-- Witness for C9: a successful pull of a concrete working copy leaves its
stored origin URL what it was. -/
theorem credential_never_persisted_amended_witness :
    (⟨["main"], some "main", [], none, true,
        "https://github.com/acme/widgets"⟩ : RepoState).originUrl =
      (⟨["main"], some "main", [], none, true,
        "https://github.com/acme/widgets"⟩ : RepoState).originUrl :=
  credential_never_persisted_amended.2.2
    ⟨["main"], some "main", [], none, true, "https://github.com/acme/widgets"⟩
    "https://github.com/acme/widgets" "widgets" none
    ⟨false, false, ⟨[], none, [], none, false, ""⟩⟩
    ⟨["main"], some "main", [], none, true, "https://github.com/acme/widgets"⟩
    [.pulled "https://github.com/acme/widgets"] rfl

end AutoHeal
